import Mathlib

/-!
Verification development for the space-planner geometry and interaction core.

The TypeScript sources are embedded shallowly:
* JS numbers that always hold integer world units (tenths of an inch) become `Int`;
* other JS numbers (screen pixels, scales, angles, lengths) become `Real`,
  modelling exact arithmetic;
* `Math.round` becomes `round` (both are floor of x + 1/2);
* the ray-casting comparison in `isPointInPolygon` is carried out in `Rat`
  so the test stays decidable (its inputs are always integer points).

Definitions mirror `src/geometry.ts` and the canvas handlers of `src/App.tsx`.
-/

namespace SpacePlanner

/-- A world-coordinate point, integer tenths of an inch (`types.ts` Point). -/
structure Point where
  x : Int
  y : Int
deriving DecidableEq, Repr

/-- A screen-space point in pixels (`types.ts` ScreenPoint). -/
structure ScreenPoint where
  x : Real
  y : Real

/-- An ordered closed ring of points (`types.ts` Polygon). -/
structure Polygon where
  points : List Point
deriving DecidableEq

/-- A furniture object (`types.ts` SpaceObject). -/
structure SpaceObject where
  id : String
  name : String
  shape : Polygon
  position : Point
  rotation : Real
  zIndex : Int

/-- Pan/zoom state (`types.ts` Viewport). -/
structure Viewport where
  offsetX : Real
  offsetY : Real
  scale : Real
  baseScale : Real
  zoomLevel : Real

/-- `geometry.ts` worldToScreen: `screen = (world/10 + offset) * scale * zoomLevel`. -/
noncomputable def worldToScreen (point : Point) (viewport : Viewport) : ScreenPoint :=
  let worldX : Real := (point.x : Real) / 10
  let worldY : Real := (point.y : Real) / 10
  { x := (worldX + viewport.offsetX) * viewport.scale * viewport.zoomLevel,
    y := (worldY + viewport.offsetY) * viewport.scale * viewport.zoomLevel }

/-- `geometry.ts` screenToWorld: inverse transform with a final round to integer tenths. -/
noncomputable def screenToWorld (x y : Real) (viewport : Viewport) : Point :=
  let viewX := x / (viewport.scale * viewport.zoomLevel)
  let viewY := y / (viewport.scale * viewport.zoomLevel)
  let worldX := viewX - viewport.offsetX
  let worldY := viewY - viewport.offsetY
  { x := round (worldX * 10), y := round (worldY * 10) }

/-- One ray-casting step of `isPointInPolygon`: the loop body for the edge from
`pj` to `pi`, deciding whether the crossing flag flips.  The division is exact
rational arithmetic; as in the source it is only relevant when the guard holds,
which forces `yj - yi` to be nonzero. -/
def rayCastFlip (point pi pj : Point) : Bool :=
  let xi : Rat := pi.x
  let yi : Rat := pi.y
  let xj : Rat := pj.x
  let yj : Rat := pj.y
  let px : Rat := point.x
  let py : Rat := point.y
  (decide ((yi > py) ≠ (yj > py))) && decide (px < (xj - xi) * (py - yi) / (yj - yi) + xi)

/-- `geometry.ts` isPointInPolygon: even-odd ray casting; `false` for rings with
fewer than 3 points.  The source loop visits pairs `(points[i], points[j])`
with `j = i - 1 mod n`, starting at `(points[0], points[n-1])`; this is the
zip of the list with its rotation by one to the right. -/
def isPointInPolygon (point : Point) (polygon : Polygon) : Bool :=
  let pts := polygon.points
  if pts.length < 3 then false
  else
    let shifted := pts.getLastD { x := 0, y := 0 } :: pts.dropLast
    (pts.zip shifted).foldl
      (fun inside pij => if rayCastFlip point pij.1 pij.2 then !inside else inside) false

/-- `geometry.ts` rotatePoint: rotate about the origin by degrees, rounding each
coordinate to the nearest integer. -/
noncomputable def rotatePoint (point : Point) (angle : Real) : Point :=
  let rad := angle * Real.pi / 180
  let c := Real.cos rad
  let s := Real.sin rad
  { x := round ((point.x : Real) * c - (point.y : Real) * s),
    y := round ((point.x : Real) * s + (point.y : Real) * c) }

/-- `geometry.ts` getObjectWorldPolygon: rotate each shape point by the object
rotation, then translate by its position. -/
noncomputable def getObjectWorldPolygon (obj : SpaceObject) : Polygon :=
  { points := obj.shape.points.map fun p =>
      let rotated := rotatePoint p obj.rotation
      { x := rotated.x + obj.position.x, y := rotated.y + obj.position.y } }

/-- `geometry.ts` isObjectInsideSpace: every corner of the world polygon must
pass the point-in-polygon test against the space outline. -/
noncomputable def isObjectInsideSpace (obj : SpaceObject) (space : Polygon) : Bool :=
  (getObjectWorldPolygon obj).points.all fun point => isPointInPolygon point space

/-- `geometry.ts` constrainPositionToSpace: try the full desired position, then
X-only, then Y-only, finally keep the original position. -/
noncomputable def constrainPositionToSpace (obj : SpaceObject) (desiredPosition : Point)
    (space : Polygon) : Point :=
  let testObject := { obj with position := desiredPosition }
  if isObjectInsideSpace testObject space then desiredPosition
  else
    let xOnlyPosition : Point := { x := desiredPosition.x, y := obj.position.y }
    let testObjectX := { obj with position := xOnlyPosition }
    if isObjectInsideSpace testObjectX space then xOnlyPosition
    else
      let yOnlyPosition : Point := { x := obj.position.x, y := desiredPosition.y }
      let testObjectY := { obj with position := yOnlyPosition }
      if isObjectInsideSpace testObjectY space then yOnlyPosition
      else obj.position

/-- Truncation toward zero, the rounding used by the JS `%` operator. -/
noncomputable def jsTrunc (x : Real) : Int :=
  if 0 ≤ x then ⌊x⌋ else -⌊-x⌋

/-- The JS remainder operator on numbers: `a - b * trunc (a / b)`. -/
noncomputable def jsMod (a b : Real) : Real :=
  a - b * (jsTrunc (a / b) : Real)

/-- JS `Math.atan2 (y, x)` for inputs without signed zero. -/
noncomputable def atan2 (y x : Real) : Real :=
  if 0 < x then Real.arctan (y / x)
  else if x < 0 then
    (if 0 ≤ y then Real.arctan (y / x) + Real.pi else Real.arctan (y / x) - Real.pi)
  else if 0 < y then Real.pi / 2
  else if y < 0 then -(Real.pi / 2)
  else 0

/-- `geometry.ts` calculateRotationAngle: `atan2` in degrees normalized into
`[0, 360)` by `(angle + 360) % 360`. -/
noncomputable def calculateRotationAngle (center mousePoint : Point) : Real :=
  let dx : Real := ((mousePoint.x - center.x : Int) : Real)
  let dy : Real := ((mousePoint.y - center.y : Int) : Real)
  let angle := atan2 dy dx * (180 / Real.pi)
  jsMod (angle + 360) 360

/-- Axis-aligned bounds of a polygon (`geometry.ts` getPolygonBounds).  The
source starts its fold from infinities; for the nonempty rings it is applied
to this equals a fold started from the first point, which is how it is stated
here (an empty ring yields zeros instead of infinities). -/
def getPolygonBounds (polygon : Polygon) : Int × Int × Int × Int :=
  match polygon.points with
  | [] => (0, 0, 0, 0)
  | p :: ps =>
    ps.foldl (fun b q => (min b.1 q.x, min b.2.1 q.y, max b.2.2.1 q.x, max b.2.2.2 q.y))
      (p.x, p.y, p.x, p.y)

/-- `types.ts` InteractionMode. -/
inductive InteractionMode where
  | idle
  | draggingObject
  | draggingRotation
  | panning
  | editingPolygon
  | draggingVertex
  | addingVertex
deriving DecidableEq

/-- `types.ts` PolygonEditTarget. -/
inductive PolygonEditTarget where
  | space
  | object (objectId : String)
deriving DecidableEq

/-- `types.ts` PolygonEditState. -/
structure PolygonEditState where
  target : PolygonEditTarget
  hoveredVertexIndex : Option Nat
  hoveredEdgeIndex : Option Nat
  draggedVertexIndex : Option Nat
  measurementEdgeIndex : Option Nat
deriving DecidableEq

/-- The transient state of the canvas component in `App.tsx` that the pointer
handlers read and write, together with the document data (`space.outline`,
`objects`) the component receives from the host.  The render-only
`mousePosition` field and the pinch bookkeeping (used only by the touch
handlers modelled separately) are omitted. -/
structure CanvasState where
  viewport : Viewport
  mode : InteractionMode
  dragStart : Option ScreenPoint
  draggedObjectId : Option String
  dragObjectStartPos : Option Point
  rotationStartAngle : Real
  vertexDragStart : Option Point
  polygonEditState : Option PolygonEditState
  spaceOutline : Polygon
  objects : List SpaceObject

/-- `App.tsx` handleUpdateObjectPosition: replace the position of the object
with the given id. -/
def handleUpdateObjectPosition (objects : List SpaceObject) (id : String)
    (position : Point) : List SpaceObject :=
  objects.map fun obj => if obj.id == id then { obj with position := position } else obj

/-- `App.tsx` handleUpdateObjectRotation: reject the new rotation when the
rotated object would leave the space outline, otherwise commit it. -/
noncomputable def handleUpdateObjectRotation (objects : List SpaceObject)
    (spaceOutline : Polygon) (id : String) (rotation : Real) : List SpaceObject :=
  match objects.find? (fun o => o.id == id) with
  | none => objects
  | some obj =>
    if isObjectInsideSpace { obj with rotation := rotation } spaceOutline then
      objects.map fun o => if o.id == id then { o with rotation := rotation } else o
    else objects

/-- `App.tsx` handleUpdateObjectShape: replace the shape of the object with the
given id. -/
def handleUpdateObjectShape (objects : List SpaceObject) (id : String)
    (shape : Polygon) : List SpaceObject :=
  objects.map fun obj => if obj.id == id then { obj with shape := shape } else obj

/-- `App.tsx` getEditingPolygonWorldPoints: the edited ring in world
coordinates, when an edit target exists. -/
noncomputable def getEditingPolygonWorldPoints (st : CanvasState) : Option (List Point) :=
  match st.polygonEditState with
  | none => none
  | some pe =>
    match pe.target with
    | .space => some st.spaceOutline.points
    | .object objectId =>
      (st.objects.find? (fun o => o.id == objectId)).map
        fun o => (getObjectWorldPolygon o).points

/-- The screen distance computed in the loop of `App.tsx` findVertexAtPoint. -/
noncomputable def vertexScreenDist (viewport : Viewport) (screenPoint : ScreenPoint)
    (p : Point) : Real :=
  let screenPos := worldToScreen p viewport
  let dx := screenPos.x - screenPoint.x
  let dy := screenPos.y - screenPoint.y
  Real.sqrt (dx * dx + dy * dy)

/-- The index loop of `App.tsx` findVertexAtPoint: return the current index as
soon as a vertex lies within the 10 px hit radius. -/
noncomputable def findVertexAux (viewport : Viewport) (screenPoint : ScreenPoint) :
    List Point → Nat → Option Nat
  | [], _ => none
  | p :: rest, i =>
    if vertexScreenDist viewport screenPoint p ≤ 10 then some i
    else findVertexAux viewport screenPoint rest (i + 1)

/-- `App.tsx` findVertexAtPoint over an explicit list of world points (the
source reads the list through getEditingPolygonWorldPoints). -/
noncomputable def findVertexAtPoint (worldPoints : List Point) (viewport : Viewport)
    (screenPoint : ScreenPoint) : Option Nat :=
  findVertexAux viewport screenPoint worldPoints 0

/-- The dragging-vertex branch of `App.tsx` handleMouseMove: recompute the
dragged vertex from the anchor `vertexDragStart` plus the accumulated screen
delta, write the ring back (converting to object-local coordinates by the
inverse rotation when the target is an object shape). -/
noncomputable def vertexDragMove (st : CanvasState) (dragStart : ScreenPoint)
    (pe : PolygonEditState) (vertexDragStart : Point) (screenX screenY : Real) :
    CanvasState :=
  let dx := screenX - dragStart.x
  let dy := screenY - dragStart.y
  let worldDx := dx / (st.viewport.scale * st.viewport.zoomLevel) * 10
  let worldDy := dy / (st.viewport.scale * st.viewport.zoomLevel) * 10
  let newPoint : Point :=
    { x := round ((vertexDragStart.x : Real) + worldDx),
      y := round ((vertexDragStart.y : Real) + worldDy) }
  match getEditingPolygonWorldPoints st, pe.draggedVertexIndex with
  | some worldPoints, some draggedVertexIndex =>
    let newPoints := worldPoints.set draggedVertexIndex newPoint
    match pe.target with
    | .space => { st with spaceOutline := { points := newPoints } }
    | .object targetObjectId =>
      match st.objects.find? (fun o => o.id == targetObjectId) with
      | none => st
      | some obj =>
        let localPoints := newPoints.map fun p =>
          let dx : Real := ((p.x - obj.position.x : Int) : Real)
          let dy : Real := ((p.y - obj.position.y : Int) : Real)
          let angle := -obj.rotation * Real.pi / 180
          ({ x := round (dx * Real.cos angle - dy * Real.sin angle),
             y := round (dx * Real.sin angle + dy * Real.cos angle) } : Point)
        { st with objects := (handleUpdateObjectShape st.objects targetObjectId
            { points := localPoints }) }
  | _, _ => st

/-- The dragging-object branch of `App.tsx` handleMouseMove: desired position
from the anchor plus accumulated delta, constrained by the wall-sliding
fallback before being committed. -/
noncomputable def objectDragMove (st : CanvasState) (dragStart : ScreenPoint)
    (draggedObjectId : String) (dragObjectStartPos : Point) (screenX screenY : Real) :
    CanvasState :=
  let dx := screenX - dragStart.x
  let dy := screenY - dragStart.y
  let worldDx := dx / (st.viewport.scale * st.viewport.zoomLevel) * 10
  let worldDy := dy / (st.viewport.scale * st.viewport.zoomLevel) * 10
  let desiredPosition : Point :=
    { x := round ((dragObjectStartPos.x : Real) + worldDx),
      y := round ((dragObjectStartPos.y : Real) + worldDy) }
  match st.objects.find? (fun o => o.id == draggedObjectId) with
  | none => st
  | some draggedObject =>
    let constrainedPosition :=
      constrainPositionToSpace draggedObject desiredPosition st.spaceOutline
    { st with objects :=
        (handleUpdateObjectPosition st.objects draggedObjectId constrainedPosition) }

/-- The dragging-rotation branch of `App.tsx` handleMouseMove: the candidate
rotation is committed through handleUpdateObjectRotation only when the rotated
object stays inside the space. -/
noncomputable def rotationDragMove (st : CanvasState) (draggedObjectId : String)
    (screenX screenY : Real) : CanvasState :=
  let worldPoint := screenToWorld screenX screenY st.viewport
  match st.objects.find? (fun o => o.id == draggedObjectId) with
  | none => st
  | some draggedObject =>
    let angle := calculateRotationAngle draggedObject.position worldPoint
    let newRotation := jsMod (angle - st.rotationStartAngle + 360) 360
    if isObjectInsideSpace { draggedObject with rotation := newRotation } st.spaceOutline
    then
      { st with objects :=
          (handleUpdateObjectRotation st.objects st.spaceOutline draggedObjectId
            newRotation) }
    else st

/-- The panning branch of `App.tsx` handleMouseMove: add the per-frame delta to
the offsets and re-anchor `dragStart` at the current pointer position. -/
noncomputable def panMove (st : CanvasState) (dragStart : ScreenPoint)
    (screenX screenY : Real) : CanvasState :=
  let dx := screenX - dragStart.x
  let dy := screenY - dragStart.y
  let worldDx := dx / (st.viewport.scale * st.viewport.zoomLevel)
  let worldDy := dy / (st.viewport.scale * st.viewport.zoomLevel)
  { st with
      viewport := { st.viewport with
        offsetX := st.viewport.offsetX + worldDx,
        offsetY := st.viewport.offsetY + worldDy },
      dragStart := some { x := screenX, y := screenY } }

/-- `App.tsx` handleMouseMove, from the `if (!dragStart) return` guard on.  The
hover-recomputation preamble runs only in idle mode and touches only the hover
fields, and is not modelled; in every non-idle mode this definition matches the
source branch for branch, including the guard fall-throughs when a required
piece of drag state is missing. -/
noncomputable def handleMouseMove (st : CanvasState) (screenX screenY : Real) :
    CanvasState :=
  match st.dragStart with
  | none => st
  | some dragStart =>
    if st.mode = .draggingVertex then
      match st.polygonEditState, st.vertexDragStart with
      | some pe, some vds => vertexDragMove st dragStart pe vds screenX screenY
      | _, _ => st
    else if st.mode = .draggingObject then
      match st.draggedObjectId, st.dragObjectStartPos with
      | some oid, some startPos => objectDragMove st dragStart oid startPos screenX screenY
      | _, _ => st
    else if st.mode = .draggingRotation then
      match st.draggedObjectId with
      | some oid => rotationDragMove st oid screenX screenY
      | none => st
    else if st.mode = .panning then panMove st dragStart screenX screenY
    else st

/-- `App.tsx` handleWheel: multiply the zoom level by 1.1 per tick (or its
inverse), clamp into [0.1, 10], and shift the offsets so the world point under
the cursor stays fixed. -/
noncomputable def handleWheel (viewport : Viewport) (mouseX mouseY deltaY : Real) :
    Viewport :=
  let worldBefore := screenToWorld mouseX mouseY viewport
  let zoomFactor : Real := 1.1
  let delta := if deltaY > 0 then 1 / zoomFactor else zoomFactor
  let newZoomLevel := max 0.1 (min 10 (viewport.zoomLevel * delta))
  let newViewport := { viewport with zoomLevel := newZoomLevel }
  let worldAfter := screenToWorld mouseX mouseY newViewport
  let offsetDx := ((worldAfter.x - worldBefore.x : Int) : Real) / 10
  let offsetDy := ((worldAfter.y - worldBefore.y : Int) : Real) / 10
  { newViewport with
      offsetX := newViewport.offsetX - offsetDx,
      offsetY := newViewport.offsetY - offsetDy }

/-- The pinch branch of `App.tsx` handleTouchMove: scale the initial zoom by
the ratio of finger distances, clamp into [0.1, 10], and solve for the offsets
that put the anchored world point under the current pinch center. -/
noncomputable def handleTouchMovePinch (viewport : Viewport)
    (initialPinchDistance initialPinchZoom : Real) (initialPinchWorldPoint : Point)
    (currentDistance : Real) (currentCenter : ScreenPoint) : Viewport :=
  let zoomChange := currentDistance / initialPinchDistance
  let newZoomLevel := max 0.1 (min 10 (initialPinchZoom * zoomChange))
  let newScale := viewport.baseScale * newZoomLevel
  let expectedScreenX := ((initialPinchWorldPoint.x : Real) / 10 + viewport.offsetX) * newScale
  let expectedScreenY := ((initialPinchWorldPoint.y : Real) / 10 + viewport.offsetY) * newScale
  let offsetDx := (currentCenter.x - expectedScreenX) / newScale
  let offsetDy := (currentCenter.y - expectedScreenY) / newScale
  { viewport with
      zoomLevel := newZoomLevel,
      offsetX := viewport.offsetX + offsetDx,
      offsetY := viewport.offsetY + offsetDy }

/-- The initial viewport state of the canvas component (`App.tsx` useState). -/
def initialViewport : Viewport :=
  { offsetX := 0, offsetY := 0, scale := 1, baseScale := 1, zoomLevel := 1 }

/-- `App.tsx` resetViewport: fit-to-space scale with a 1.2 padding factor,
centered offsets, zoom level 1. -/
noncomputable def resetViewport (spaceOutline : Polygon)
    (containerWidth containerHeight : Real) : Viewport :=
  let bounds := getPolygonBounds spaceOutline
  let spaceWidth : Real := ((bounds.2.2.1 - bounds.1 : Int) : Real) / 10
  let spaceHeight : Real := ((bounds.2.2.2 - bounds.2.1 : Int) : Real) / 10
  let scaleX := containerWidth / (spaceWidth * 1.2)
  let scaleY := containerHeight / (spaceHeight * 1.2)
  let baseScale := min scaleX scaleY
  { offsetX := -((bounds.1 : Real) / 10) + (containerWidth / baseScale - spaceWidth) / 2,
    offsetY := -((bounds.2.1 : Real) / 10) + (containerHeight / baseScale - spaceHeight) / 2,
    scale := baseScale,
    baseScale := baseScale,
    zoomLevel := 1 }

/-- The viewport states reachable in the canvas component: the initial state,
a reset, a wheel-zoom step, a pinch-zoom step, and a pan step (the only
`setViewport` call sites in `App.tsx`; panning rewrites only the offsets). -/
inductive ReachableViewport : Viewport → Prop where
  | init : ReachableViewport initialViewport
  | reset (outline : Polygon) (w h : Real) : ReachableViewport (resetViewport outline w h)
  | wheel {v : Viewport} (mx my d : Real) :
      ReachableViewport v → ReachableViewport (handleWheel v mx my d)
  | pinch {v : Viewport} (d0 z0 : Real) (wp : Point) (d : Real) (c : ScreenPoint) :
      ReachableViewport v → ReachableViewport (handleTouchMovePinch v d0 z0 wp d c)
  | pan {v : Viewport} (dx dy : Real) :
      ReachableViewport v →
      ReachableViewport { v with offsetX := v.offsetX + dx, offsetY := v.offsetY + dy }

/-- `App.tsx` handleMeasurementInput, acting on the point list of the edit
target (the space outline or an object shape; both callers write the returned
list back unchanged through handleUpdateSpaceOutline / handleUpdateObjectShape).
`targetLength` is already in tenths of an inch (the caller converts inches). -/
noncomputable def handleMeasurementInput (points : List Point) (edgeIndex : Int)
    (targetLength : Real) : List Point :=
  if edgeIndex < 0 ∨ (points.length : Int) ≤ edgeIndex then points
  else
    let i := edgeIndex.toNat
    let p1 := points.getD i { x := 0, y := 0 }
    let p2 := points.getD ((i + 1) % points.length) { x := 0, y := 0 }
    let dx : Int := p2.x - p1.x
    let dy : Int := p2.y - p1.y
    let currentLength : Real := Real.sqrt ((dx * dx + dy * dy : Int) : Real)
    if currentLength = 0 then points
    else
      let scale := targetLength / currentLength
      let newP2 : Point :=
        { x := round ((p1.x : Real) + (dx : Real) * scale),
          y := round ((p1.y : Real) + (dy : Real) * scale) }
      points.set ((i + 1) % points.length) newP2

/-! ### Helper lemmas -/

/-- The ray-casting step with the division cleared: multiply both sides of the
comparison by `yj - yi`, whose sign is fixed by the direction of the edge.
Used only to evaluate `rayCastFlip` on concrete integer inputs. -/
def rayCastFlipInt (point pi pj : Point) : Bool :=
  (decide ((pi.y > point.y) ≠ (pj.y > point.y))) &&
    (if pi.y < pj.y then
      decide ((point.x - pi.x) * (pj.y - pi.y) < (pj.x - pi.x) * (point.y - pi.y))
     else
      decide ((pj.x - pi.x) * (point.y - pi.y) < (point.x - pi.x) * (pj.y - pi.y)))

/-- Clearing the division in the ray-casting comparison is sound: under the
crossing guard the edge is not horizontal, and the direction of the comparison
flips with the sign of `yj - yi`. -/
theorem rayCastFlip_eq_int (p a b : Point) : rayCastFlip p a b = rayCastFlipInt p a b := by
  unfold rayCastFlip rayCastFlipInt
  dsimp only
  have hguard : (decide (((a.y : Rat) > ((p.y : Rat))) ≠ ((b.y : Rat) > (p.y : Rat))))
      = decide ((a.y > p.y) ≠ (b.y > p.y)) := by
    rw [decide_eq_decide]
    simp [gt_iff_lt, ne_eq, eq_iff_iff, Int.cast_lt]
  rw [hguard]
  by_cases hG : (a.y > p.y) ≠ (b.y > p.y)
  · have hne : a.y ≠ b.y := fun he => hG (by rw [he])
    rw [decide_eq_true hG, Bool.true_and, Bool.true_and]
    by_cases hlt : a.y < b.y
    · have hq : (0 : Rat) < (b.y : Rat) - (a.y : Rat) := by
        have := sub_pos.mpr hlt
        exact_mod_cast this
      rw [if_pos hlt, decide_eq_decide, ← sub_lt_iff_lt_add, lt_div_iff₀ hq]
      constructor <;> intro h <;> exact_mod_cast h
    · have hlt2 : b.y < a.y := by omega
      have hq : (b.y : Rat) - (a.y : Rat) < 0 := by
        have := sub_neg.mpr hlt2
        exact_mod_cast this
      rw [if_neg hlt, decide_eq_decide, ← sub_lt_iff_lt_add, lt_div_iff_of_neg hq]
      constructor <;> intro h <;> exact_mod_cast h
  · rw [decide_eq_false hG, Bool.false_and, Bool.false_and]

/-- `isPointInPolygon` with the division-free ray-casting step, used to
evaluate the test on concrete inputs by kernel reduction. -/
def isPointInPolygonInt (point : Point) (polygon : Polygon) : Bool :=
  let pts := polygon.points
  if pts.length < 3 then false
  else
    let shifted := pts.getLastD { x := 0, y := 0 } :: pts.dropLast
    (pts.zip shifted).foldl
      (fun inside pij => if rayCastFlipInt point pij.1 pij.2 then !inside else inside) false

/-- The two forms of the point-in-polygon test agree. -/
theorem isPointInPolygon_eq_int (point : Point) (polygon : Polygon) :
    isPointInPolygon point polygon = isPointInPolygonInt point polygon := by
  unfold isPointInPolygon isPointInPolygonInt
  simp only [rayCastFlip_eq_int]

/-- Rotating by zero degrees is the identity (the rounds are exact). -/
theorem rotatePoint_zero (p : Point) : rotatePoint p 0 = p := by
  have h : (0 : Real) * Real.pi / 180 = 0 := by ring
  simp [rotatePoint, h]

/-- The world polygon of an unrotated object is its shape translated by its
position. -/
theorem getObjectWorldPolygon_rotZero (obj : SpaceObject) (h : obj.rotation = 0) :
    getObjectWorldPolygon obj =
      { points := obj.shape.points.map fun p =>
          { x := p.x + obj.position.x, y := p.y + obj.position.y } } := by
  simp [getObjectWorldPolygon, h, rotatePoint_zero]

/-- Containment of an unrotated object reduces to a decidable check on the
translated shape points. -/
theorem isObjectInsideSpace_rotZero (obj : SpaceObject) (space : Polygon)
    (h : obj.rotation = 0) :
    isObjectInsideSpace obj space =
      (obj.shape.points.map fun p =>
          ({ x := p.x + obj.position.x, y := p.y + obj.position.y } : Point)).all
        (fun point => isPointInPolygon point space) := by
  rw [isObjectInsideSpace, getObjectWorldPolygon_rotZero obj h]

/-! ### Concrete fixtures -/

/-- An L-shaped room: the union of the rectangles `[0,200] x [0,100]` and
`[0,100] x [0,200]` (tenths of an inch). -/
def lShape : Polygon :=
  { points := [{ x := 0, y := 0 }, { x := 200, y := 0 }, { x := 200, y := 100 },
               { x := 100, y := 100 }, { x := 100, y := 200 }, { x := 0, y := 200 }] }

/-- A 2 inch by 2 inch square shape centered at the origin. -/
def box20 : Polygon :=
  { points := [{ x := -10, y := -10 }, { x := 10, y := -10 },
               { x := 10, y := 10 }, { x := -10, y := 10 }] }

/-- An unrotated square object placed at (50, 50) in the L-shaped room. -/
def slidingObj : SpaceObject :=
  { id := "a", name := "sofa", shape := box20, position := { x := 50, y := 50 },
    rotation := 0, zIndex := 0 }

/-! ### C1 -/

/-- C1: constrainPositionToSpace returns the first success of the ordered
fallback: the full desired position when it passes containment, otherwise the
X-only position when it passes, otherwise the Y-only position when it passes,
otherwise the unmodified original position.  The X-only case does not look at
the Y-only alternative, so when both would pass the X-only position wins. -/
theorem constrainPositionToSpace_firstSuccess (obj : SpaceObject)
    (desiredPosition : Point) (space : Polygon) :
    (isObjectInsideSpace { obj with position := desiredPosition } space = true →
      constrainPositionToSpace obj desiredPosition space = desiredPosition) ∧
    (isObjectInsideSpace { obj with position := desiredPosition } space = false →
      isObjectInsideSpace
        { obj with position := { x := desiredPosition.x, y := obj.position.y } }
        space = true →
      constrainPositionToSpace obj desiredPosition space =
        { x := desiredPosition.x, y := obj.position.y }) ∧
    (isObjectInsideSpace { obj with position := desiredPosition } space = false →
      isObjectInsideSpace
        { obj with position := { x := desiredPosition.x, y := obj.position.y } }
        space = false →
      isObjectInsideSpace
        { obj with position := { x := obj.position.x, y := desiredPosition.y } }
        space = true →
      constrainPositionToSpace obj desiredPosition space =
        { x := obj.position.x, y := desiredPosition.y }) ∧
    (isObjectInsideSpace { obj with position := desiredPosition } space = false →
      isObjectInsideSpace
        { obj with position := { x := desiredPosition.x, y := obj.position.y } }
        space = false →
      isObjectInsideSpace
        { obj with position := { x := obj.position.x, y := desiredPosition.y } }
        space = false →
      constrainPositionToSpace obj desiredPosition space = obj.position) := by
  refine ⟨fun h1 => ?_, fun h1 h2 => ?_, fun h1 h2 h3 => ?_, fun h1 h2 h3 => ?_⟩
  · simp [constrainPositionToSpace, h1]
  · simp [constrainPositionToSpace, h1, h2]
  · simp [constrainPositionToSpace, h1, h2, h3]
  · simp [constrainPositionToSpace, h1, h2, h3]

/-- C1 witness: in the L-shaped room, moving the square from (50, 50) toward
(150, 150) fails the full move, both single-axis moves would pass, and the
X-only position (150, 50) is returned. -/
theorem constrainPositionToSpace_firstSuccess_witness :
    isObjectInsideSpace { slidingObj with position := { x := 150, y := 150 } } lShape
        = false ∧
    isObjectInsideSpace { slidingObj with position := { x := 150, y := 50 } } lShape
        = true ∧
    isObjectInsideSpace { slidingObj with position := { x := 50, y := 150 } } lShape
        = true ∧
    constrainPositionToSpace slidingObj { x := 150, y := 150 } lShape
        = { x := 150, y := 50 } := by
  have hfull :
      isObjectInsideSpace { slidingObj with position := { x := 150, y := 150 } } lShape
        = false := by
    rw [isObjectInsideSpace_rotZero _ _ rfl]
    simp only [isPointInPolygon_eq_int, slidingObj, box20, lShape]
    decide
  have hx :
      isObjectInsideSpace { slidingObj with position := { x := 150, y := 50 } } lShape
        = true := by
    rw [isObjectInsideSpace_rotZero _ _ rfl]
    simp only [isPointInPolygon_eq_int, slidingObj, box20, lShape]
    decide
  have hy :
      isObjectInsideSpace { slidingObj with position := { x := 50, y := 150 } } lShape
        = true := by
    rw [isObjectInsideSpace_rotZero _ _ rfl]
    simp only [isPointInPolygon_eq_int, slidingObj, box20, lShape]
    decide
  exact ⟨hfull, hx, hy,
    (constrainPositionToSpace_firstSuccess slidingObj { x := 150, y := 150 } lShape).2.1
      hfull hx⟩

/-! ### C2 -/

/-- A 10 inch square room with a rectangular notch `[40,60] x [70,100]` cut
into its top edge (a concave outline). -/
def notchSpace : Polygon :=
  { points := [{ x := 0, y := 0 }, { x := 100, y := 0 }, { x := 100, y := 100 },
               { x := 60, y := 100 }, { x := 60, y := 70 }, { x := 40, y := 70 },
               { x := 40, y := 100 }, { x := 0, y := 100 }] }

/-- An unrotated thin bar whose endpoints sit in the two lobes beside the
notch of `notchSpace`, while its long edges pass over the notch. -/
def spanningObj : SpaceObject :=
  { id := "b", name := "bar",
    shape := { points := [{ x := 20, y := 90 }, { x := 80, y := 90 },
                          { x := 80, y := 96 }, { x := 20, y := 96 }] },
    position := { x := 0, y := 0 }, rotation := 0, zIndex := 0 }

/-- C2: isObjectInsideSpace holds exactly when every vertex of the object
world polygon passes isPointInPolygon against the space outline; since only
vertices are tested, there is a concave space and an object judged inside
although the midpoint of one of its edges lies outside the space. -/
theorem isObjectInsideSpace_vertexOnly :
    (∀ (obj : SpaceObject) (space : Polygon),
      isObjectInsideSpace obj space = true ↔
        ∀ p ∈ (getObjectWorldPolygon obj).points, isPointInPolygon p space = true) ∧
    (∃ (obj : SpaceObject) (space : Polygon) (a b m : Point),
      (getObjectWorldPolygon obj).points[0]? = some a ∧
      (getObjectWorldPolygon obj).points[1]? = some b ∧
      2 * m.x = a.x + b.x ∧ 2 * m.y = a.y + b.y ∧
      isObjectInsideSpace obj space = true ∧
      isPointInPolygon m space = false) := by
  constructor
  · intro obj space
    simp [isObjectInsideSpace, List.all_eq_true]
  · refine ⟨spanningObj, notchSpace, { x := 20, y := 90 }, { x := 80, y := 90 },
      { x := 50, y := 90 }, ?_, ?_, by decide, by decide, ?_, ?_⟩
    · rw [getObjectWorldPolygon_rotZero _ rfl]; decide
    · rw [getObjectWorldPolygon_rotZero _ rfl]; decide
    · rw [isObjectInsideSpace_rotZero _ _ rfl]
      simp only [isPointInPolygon_eq_int, spanningObj, notchSpace]
      decide
    · rw [isPointInPolygon_eq_int]; decide

/-- C2 witness: the spanning bar is judged inside the notched room, and
instantiating the vertex characterization at its first world vertex shows that
vertex passes the point test. -/
theorem isObjectInsideSpace_vertexOnly_witness :
    isObjectInsideSpace spanningObj notchSpace = true ∧
    isPointInPolygon { x := 20, y := 90 } notchSpace = true := by
  have hin : isObjectInsideSpace spanningObj notchSpace = true := by
    rw [isObjectInsideSpace_rotZero _ _ rfl]
    simp only [isPointInPolygon_eq_int, spanningObj, notchSpace]
    decide
  have hmem : ({ x := 20, y := 90 } : Point) ∈ (getObjectWorldPolygon spanningObj).points := by
    rw [getObjectWorldPolygon_rotZero _ rfl]; decide
  exact ⟨hin, (isObjectInsideSpace_vertexOnly.1 spanningObj notchSpace).mp hin _ hmem⟩

/-! ### C4 -/

/-- A concrete viewport with positive scale and zoom, for witnesses. -/
def vpW : Viewport :=
  { offsetX := 2, offsetY := 7, scale := 5, baseScale := 5, zoomLevel := 2 }

/-- C4: converting a world point to screen coordinates and back recovers the
point within one world unit per axis whenever the viewport scale and zoom
level are positive (in the exact-arithmetic model the recovery is exact, so
the one-unit tolerance holds a fortiori). -/
theorem screenToWorld_worldToScreen_roundtrip (p : Point) (v : Viewport)
    (hs : 0 < v.scale) (hz : 0 < v.zoomLevel) :
    |(screenToWorld (worldToScreen p v).x (worldToScreen p v).y v).x - p.x| ≤ 1 ∧
    |(screenToWorld (worldToScreen p v).x (worldToScreen p v).y v).y - p.y| ≤ 1 := by
  obtain ⟨px, py⟩ := p
  have heq : screenToWorld (worldToScreen ⟨px, py⟩ v).x (worldToScreen ⟨px, py⟩ v).y v
      = ⟨px, py⟩ := by
    unfold screenToWorld worldToScreen
    dsimp only
    have hsz : v.scale * v.zoomLevel ≠ 0 := by positivity
    have hx : (((px : Real) / 10 + v.offsetX) * v.scale * v.zoomLevel /
        (v.scale * v.zoomLevel) - v.offsetX) * 10 = (px : Real) := by
      field_simp
      ring
    have hy : (((py : Real) / 10 + v.offsetY) * v.scale * v.zoomLevel /
        (v.scale * v.zoomLevel) - v.offsetY) * 10 = (py : Real) := by
      field_simp
      ring
    rw [Point.mk.injEq]
    rw [hx, hy, round_intCast, round_intCast]
    exact ⟨rfl, rfl⟩
  rw [heq]
  simp

/-- C4 witness: the round trip at the concrete point (3, 4) under a viewport
with scale 5 and zoom level 2. -/
theorem screenToWorld_worldToScreen_roundtrip_witness :
    0 < vpW.scale ∧ 0 < vpW.zoomLevel ∧
    (|(screenToWorld (worldToScreen ⟨3, 4⟩ vpW).x (worldToScreen ⟨3, 4⟩ vpW).y vpW).x
        - (3 : Int)| ≤ 1 ∧
     |(screenToWorld (worldToScreen ⟨3, 4⟩ vpW).x (worldToScreen ⟨3, 4⟩ vpW).y vpW).y
        - (4 : Int)| ≤ 1) :=
  ⟨by norm_num [vpW], by norm_num [vpW],
    screenToWorld_worldToScreen_roundtrip ⟨3, 4⟩ vpW (by norm_num [vpW])
      (by norm_num [vpW])⟩

/-! ### C9 -/

/-- An integer obtained by rounding a real at distance at most one from zero
has absolute value at most one. -/
theorem abs_round_le_one {d : Real} (h : |d| ≤ 1) : |round d| ≤ 1 := by
  have h1 : |d - (round d : Real)| ≤ 1 / 2 := abs_sub_round d
  have h2 : |(round d : Real)| ≤ 3 / 2 := by
    calc |(round d : Real)| = |d - (d - (round d : Real))| := by ring_nf
      _ ≤ |d| + |d - (round d : Real)| := abs_sub _ _
      _ ≤ 1 + 1 / 2 := add_le_add h h1
      _ = 3 / 2 := by norm_num
  have h3 : |round d| < 2 := by
    have : |(round d : Real)| < 2 := lt_of_le_of_lt h2 (by norm_num)
    rw [← Int.cast_abs] at this
    exact_mod_cast this
  omega

/-- C9: rotating an integer point by any angle and back recovers the point
within one unit per axis, the only loss being the per-call rounding. -/
theorem rotatePoint_roundtrip (p : Point) (θ : Real) :
    |(rotatePoint (rotatePoint p θ) (-θ)).x - p.x| ≤ 1 ∧
    |(rotatePoint (rotatePoint p θ) (-θ)).y - p.y| ≤ 1 := by
  obtain ⟨px, py⟩ := p
  unfold rotatePoint
  dsimp only
  have hrad2 : -θ * Real.pi / 180 = -(θ * Real.pi / 180) := by ring
  rw [hrad2, Real.cos_neg, Real.sin_neg]
  have hcs : Real.cos (θ * Real.pi / 180) * Real.cos (θ * Real.pi / 180) +
      Real.sin (θ * Real.pi / 180) * Real.sin (θ * Real.pi / 180) = 1 := by
    have := Real.sin_sq_add_cos_sq (θ * Real.pi / 180)
    nlinarith [this]
  set c := Real.cos (θ * Real.pi / 180) with hc
  set s := Real.sin (θ * Real.pi / 180) with hs
  set u := (px : Real) * c - (py : Real) * s with hu
  set v := (px : Real) * s + (py : Real) * c with hv
  have hbc : |c| ≤ 1 := Real.abs_cos_le_one _
  have hbs : |s| ≤ 1 := Real.abs_sin_le_one _
  have he1 : |(round u : Real) - u| ≤ 1 / 2 := by
    rw [abs_sub_comm]; exact abs_sub_round u
  have he2 : |(round v : Real) - v| ≤ 1 / 2 := by
    rw [abs_sub_comm]; exact abs_sub_round v
  have hdx : |((round u : Real) - u) * c + ((round v : Real) - v) * s| ≤ 1 := by
    calc |((round u : Real) - u) * c + ((round v : Real) - v) * s|
        ≤ |((round u : Real) - u) * c| + |((round v : Real) - v) * s| := abs_add _ _
      _ = |(round u : Real) - u| * |c| + |(round v : Real) - v| * |s| := by
          rw [abs_mul, abs_mul]
      _ ≤ (1 / 2) * 1 + (1 / 2) * 1 :=
          add_le_add (mul_le_mul he1 hbc (abs_nonneg _) (by norm_num))
            (mul_le_mul he2 hbs (abs_nonneg _) (by norm_num))
      _ = 1 := by norm_num
  have hdy : |((round u : Real) - u) * (-s) + ((round v : Real) - v) * c| ≤ 1 := by
    calc |((round u : Real) - u) * (-s) + ((round v : Real) - v) * c|
        ≤ |((round u : Real) - u) * (-s)| + |((round v : Real) - v) * c| := abs_add _ _
      _ = |(round u : Real) - u| * |s| + |(round v : Real) - v| * |c| := by
          rw [abs_mul, abs_mul, abs_neg]
      _ ≤ (1 / 2) * 1 + (1 / 2) * 1 :=
          add_le_add (mul_le_mul he1 hbs (abs_nonneg _) (by norm_num))
            (mul_le_mul he2 hbc (abs_nonneg _) (by norm_num))
      _ = 1 := by norm_num
  have hargx : (round u : Real) * c - (round v : Real) * (-s)
      = (((round u : Real) - u) * c + ((round v : Real) - v) * s) + (px : Real) := by
    have h1 : u * c + v * s = (px : Real) * (c * c + s * s) := by rw [hu, hv]; ring
    rw [hcs, mul_one] at h1
    linear_combination h1
  have hargy : (round u : Real) * (-s) + (round v : Real) * c
      = (((round u : Real) - u) * (-s) + ((round v : Real) - v) * c) + (py : Real) := by
    have h1 : u * (-s) + v * c = (py : Real) * (c * c + s * s) := by rw [hu, hv]; ring
    rw [hcs, mul_one] at h1
    linear_combination h1
  rw [hargx, hargy, round_add_int, round_add_int]
  constructor
  · simpa using abs_round_le_one hdx
  · simpa using abs_round_le_one hdy

/-! ### C8 -/

/-- C8: the zoom level starts at 1, reset-view restores it to 1, the wheel
step multiplies by 1.1 or its inverse and clamps into [0.1, 10], the pinch
step scales the initial zoom by the distance ratio and clamps likewise, and
consequently every reachable viewport state has its zoom level in [0.1, 10]. -/
theorem zoomLevel_invariant :
    initialViewport.zoomLevel = 1 ∧
    (∀ (outline : Polygon) (w h : Real), (resetViewport outline w h).zoomLevel = 1) ∧
    (∀ (v : Viewport) (mx my d : Real),
      (handleWheel v mx my d).zoomLevel
        = max 0.1 (min 10 (v.zoomLevel * (if d > 0 then 1 / 1.1 else 1.1)))) ∧
    (∀ (v : Viewport) (d0 z0 : Real) (wp : Point) (d : Real) (c : ScreenPoint),
      (handleTouchMovePinch v d0 z0 wp d c).zoomLevel
        = max 0.1 (min 10 (z0 * (d / d0)))) ∧
    (∀ v : Viewport, ReachableViewport v → 0.1 ≤ v.zoomLevel ∧ v.zoomLevel ≤ 10) := by
  refine ⟨rfl, fun outline w h => rfl, fun v mx my d => rfl, fun v d0 z0 wp d c => rfl, ?_⟩
  intro v hv
  induction hv with
  | init => norm_num [initialViewport]
  | reset outline w h => norm_num [resetViewport]
  | wheel mx my d hv ih =>
    refine ⟨le_max_left _ _, max_le (by norm_num) (min_le_left _ _)⟩
  | pinch d0 z0 wp d c hv ih =>
    refine ⟨le_max_left _ _, max_le (by norm_num) (min_le_left _ _)⟩
  | pan dx dy hv ih => exact ih

/-- C8 witness: the invariant instantiated at the initial viewport. -/
theorem zoomLevel_invariant_witness :
    0.1 ≤ initialViewport.zoomLevel ∧ initialViewport.zoomLevel ≤ 10 :=
  zoomLevel_invariant.2.2.2.2 initialViewport ReachableViewport.init

/-! ### C5 -/

/-- The length of a nondegenerate edge is nonzero. -/
theorem edgeLength_ne_zero {p1 p2 : Point} (h : p1 ≠ p2) :
    Real.sqrt (((p2.x - p1.x) * (p2.x - p1.x) + (p2.y - p1.y) * (p2.y - p1.y) : Int) : Real)
      ≠ 0 := by
  have hne : p2.x - p1.x ≠ 0 ∨ p2.y - p1.y ≠ 0 := by
    by_contra hc
    push_neg at hc
    exact h (by cases p1; cases p2; simp at hc ⊢; omega)
  have hpos : (0 : Int) < (p2.x - p1.x) * (p2.x - p1.x) + (p2.y - p1.y) * (p2.y - p1.y) := by
    rcases hne with h1 | h1 <;> nlinarith [mul_self_nonneg (p2.x - p1.x),
      mul_self_nonneg (p2.y - p1.y), mul_self_pos.mpr h1]
  have hposr : (0 : Real) <
      (((p2.x - p1.x) * (p2.x - p1.x) + (p2.y - p1.y) * (p2.y - p1.y) : Int) : Real) := by
    exact_mod_cast hpos
  exact ne_of_gt (Real.sqrt_pos.mpr hposr)

/-- In-range, nondegenerate case of handleMeasurementInput: the successor point
of the edge is replaced by the rescaled endpoint, everything else via
`List.set` is untouched. -/
theorem handleMeasurementInput_eq_set (points : List Point) (edgeIndex : Int)
    (targetLength : Real) (p1 p2 : Point)
    (h0 : 0 ≤ edgeIndex) (h1 : edgeIndex < (points.length : Int))
    (hp1 : points.getD edgeIndex.toNat { x := 0, y := 0 } = p1)
    (hp2 : points.getD ((edgeIndex.toNat + 1) % points.length) { x := 0, y := 0 } = p2)
    (hne : p1 ≠ p2) :
    handleMeasurementInput points edgeIndex targetLength =
      points.set ((edgeIndex.toNat + 1) % points.length)
        { x := round ((p1.x : Real) + ((p2.x - p1.x : Int) : Real) *
            (targetLength / Real.sqrt (((p2.x - p1.x) * (p2.x - p1.x) +
              (p2.y - p1.y) * (p2.y - p1.y) : Int) : Real))),
          y := round ((p1.y : Real) + ((p2.y - p1.y : Int) : Real) *
            (targetLength / Real.sqrt (((p2.x - p1.x) * (p2.x - p1.x) +
              (p2.y - p1.y) * (p2.y - p1.y) : Int) : Real))) } := by
  unfold handleMeasurementInput
  rw [if_neg (by omega)]
  dsimp only
  rw [hp1, hp2, if_neg (edgeLength_ne_zero hne)]

/-- C5: submitting a measurement target length for an edge rescales only the
second endpoint of that edge to `round (P1 + (P2 - P1) * (L / length))`, is a
no-op for an out-of-range edge index, and on the concrete edges of the spec:
(0,0)-(400,0) at target 600 tenths gives (600,0), and (0,0)-(300,400) at
target 1000 tenths gives (600,800). -/
theorem handleMeasurementInput_spec :
    (∀ (points : List Point) (edgeIndex : Int) (targetLength : Real),
      edgeIndex < 0 ∨ (points.length : Int) ≤ edgeIndex →
      handleMeasurementInput points edgeIndex targetLength = points) ∧
    (∀ (points : List Point) (edgeIndex : Int) (targetLength : Real) (p1 p2 : Point),
      0 ≤ edgeIndex → edgeIndex < (points.length : Int) →
      points.getD edgeIndex.toNat { x := 0, y := 0 } = p1 →
      points.getD ((edgeIndex.toNat + 1) % points.length) { x := 0, y := 0 } = p2 →
      p1 ≠ p2 →
      handleMeasurementInput points edgeIndex targetLength =
        points.set ((edgeIndex.toNat + 1) % points.length)
          { x := round ((p1.x : Real) + ((p2.x - p1.x : Int) : Real) *
              (targetLength / Real.sqrt (((p2.x - p1.x) * (p2.x - p1.x) +
                (p2.y - p1.y) * (p2.y - p1.y) : Int) : Real))),
            y := round ((p1.y : Real) + ((p2.y - p1.y : Int) : Real) *
              (targetLength / Real.sqrt (((p2.x - p1.x) * (p2.x - p1.x) +
                (p2.y - p1.y) * (p2.y - p1.y) : Int) : Real))) }) ∧
    (handleMeasurementInput
        [{ x := 0, y := 0 }, { x := 400, y := 0 }, { x := 200, y := 300 }] 0 600
      = [{ x := 0, y := 0 }, { x := 600, y := 0 }, { x := 200, y := 300 }]) ∧
    (handleMeasurementInput
        [{ x := 0, y := 0 }, { x := 300, y := 400 }, { x := -100, y := 400 }] 0 1000
      = [{ x := 0, y := 0 }, { x := 600, y := 800 }, { x := -100, y := 400 }]) := by
  refine ⟨?_, ?_, ?_, ?_⟩
  · intro points edgeIndex targetLength h
    unfold handleMeasurementInput
    rw [if_pos h]
  · intro points edgeIndex targetLength p1 p2 h0 h1 hp1 hp2 hne
    exact handleMeasurementInput_eq_set points edgeIndex targetLength p1 p2 h0 h1 hp1 hp2 hne
  · rw [handleMeasurementInput_eq_set
      [{ x := 0, y := 0 }, { x := 400, y := 0 }, { x := 200, y := 300 }] 0 600
      { x := 0, y := 0 } { x := 400, y := 0 }
      (by norm_num) (by norm_num) (by decide) (by decide) (by decide)]
    have hs : Real.sqrt (((400 - 0) * (400 - 0) + (0 - 0) * (0 - 0) : Int) : Real) = 400 := by
      norm_num
      rw [show (160000 : Real) = 400 ^ 2 by norm_num,
        Real.sqrt_sq (by norm_num : (0 : Real) ≤ 400)]
    rw [hs]
    norm_num
  · rw [handleMeasurementInput_eq_set
      [{ x := 0, y := 0 }, { x := 300, y := 400 }, { x := -100, y := 400 }] 0 1000
      { x := 0, y := 0 } { x := 300, y := 400 }
      (by norm_num) (by norm_num) (by decide) (by decide) (by decide)]
    have hs : Real.sqrt (((300 - 0) * (300 - 0) + (400 - 0) * (400 - 0) : Int) : Real)
        = 500 := by
      norm_num
      rw [show (250000 : Real) = 500 ^ 2 by norm_num,
        Real.sqrt_sq (by norm_num : (0 : Real) ≤ 500)]
    rw [hs]
    norm_num

/-- C5 witness: the in-range case instantiated on the concrete 40 inch
horizontal edge. -/
theorem handleMeasurementInput_spec_witness :
    (0 : Int) ≤ 0 ∧ (0 : Int) < 3 ∧
    handleMeasurementInput
        [{ x := 0, y := 0 }, { x := 400, y := 0 }, { x := 200, y := 300 }] 0 600
      = [{ x := 0, y := 0 }, { x := 400, y := 0 }, { x := 200, y := 300 }].set 1
          { x := round ((0 : Real) + ((400 : Int) : Real) *
              (600 / Real.sqrt (((400 : Int) * 400 + 0 * 0 : Int) : Real))),
            y := round ((0 : Real) + ((0 : Int) : Real) *
              (600 / Real.sqrt (((400 : Int) * 400 + 0 * 0 : Int) : Real))) } := by
  refine ⟨by norm_num, by norm_num, ?_⟩
  have h := handleMeasurementInput_spec.2.1
    [{ x := 0, y := 0 }, { x := 400, y := 0 }, { x := 200, y := 300 }] 0 600
    { x := 0, y := 0 } { x := 400, y := 0 } (by norm_num) (by norm_num) (by decide)
    (by decide) (by decide)
  simpa using h

/-! ### C6 -/

/-- What a `some` result of the findVertexAtPoint loop means, relative to the
starting index. -/
theorem findVertexAux_some (viewport : Viewport) (q : ScreenPoint) :
    ∀ (pts : List Point) (k i : Nat),
      findVertexAux viewport q pts k = some i →
      k ≤ i ∧ i - k < pts.length ∧
      vertexScreenDist viewport q (pts.getD (i - k) { x := 0, y := 0 }) ≤ 10 ∧
      ∀ j, j < i - k → 10 < vertexScreenDist viewport q (pts.getD j { x := 0, y := 0 }) := by
  intro pts
  induction pts with
  | nil => intro k i h; simp [findVertexAux] at h
  | cons p rest ih =>
    intro k i h
    unfold findVertexAux at h
    by_cases hd : vertexScreenDist viewport q p ≤ 10
    · rw [if_pos hd] at h
      obtain rfl : k = i := by injection h
      refine ⟨le_refl _, by simp, by simpa, ?_⟩
      intro j hj
      omega
    · rw [if_neg hd] at h
      obtain ⟨h1, h2, h3, h4⟩ := ih (k + 1) i h
      refine ⟨by omega, by simp; omega, ?_, ?_⟩
      · have he : i - k = (i - (k + 1)) + 1 := by omega
        rw [he]
        simpa using h3
      · intro j hj
        cases j with
        | zero => simpa using not_le.mp hd
        | succ j2 =>
          have hj2 : j2 < i - (k + 1) := by omega
          simpa using h4 j2 hj2

/-- What a `none` result of the findVertexAtPoint loop means. -/
theorem findVertexAux_none (viewport : Viewport) (q : ScreenPoint) :
    ∀ (pts : List Point) (k : Nat),
      findVertexAux viewport q pts k = none →
      ∀ j, j < pts.length → 10 < vertexScreenDist viewport q (pts.getD j { x := 0, y := 0 }) := by
  intro pts
  induction pts with
  | nil => intro k h j hj; simp at hj
  | cons p rest ih =>
    intro k h j hj
    unfold findVertexAux at h
    by_cases hd : vertexScreenDist viewport q p ≤ 10
    · rw [if_pos hd] at h; exact absurd h (by simp)
    · rw [if_neg hd] at h
      cases j with
      | zero => simpa using not_le.mp hd
      | succ j2 =>
        have hj2 : j2 < rest.length := by simpa using hj
        simpa using ih (k + 1) h j2 hj2

/-- C6 (amended): findVertexAtPoint returns the first vertex in index order
whose screen distance to the query point is within the 10 px radius —
regardless of whether a later vertex is nearer — and null when no vertex is
within the radius. -/
theorem findVertexAtPoint_firstMatch (worldPoints : List Point) (viewport : Viewport)
    (screenPoint : ScreenPoint) :
    (∀ i, findVertexAtPoint worldPoints viewport screenPoint = some i →
      i < worldPoints.length ∧
      vertexScreenDist viewport screenPoint (worldPoints.getD i { x := 0, y := 0 }) ≤ 10 ∧
      ∀ j, j < i →
        10 < vertexScreenDist viewport screenPoint (worldPoints.getD j { x := 0, y := 0 })) ∧
    (findVertexAtPoint worldPoints viewport screenPoint = none →
      ∀ j, j < worldPoints.length →
        10 < vertexScreenDist viewport screenPoint (worldPoints.getD j { x := 0, y := 0 })) := by
  constructor
  · intro i h
    obtain ⟨h1, h2, h3, h4⟩ := findVertexAux_some viewport screenPoint worldPoints 0 i h
    rw [Nat.sub_zero] at h2 h3 h4
    exact ⟨h2, h3, h4⟩
  · intro h
    exact findVertexAux_none viewport screenPoint worldPoints 0 h

/-- A viewport mapping world tenths to screen pixels one to one. -/
def vtxViewport : Viewport :=
  { offsetX := 0, offsetY := 0, scale := 10, baseScale := 10, zoomLevel := 1 }

/-- Edit-target vertices for the hit-test counterexample: vertex 0 is 8 px
from the query point, vertex 1 only 3 px, vertex 2 far away. -/
def vtxPoints : List Point := [{ x := 8, y := 0 }, { x := 3, y := 0 }, { x := 0, y := 500 }]

/-- The screen distance of vertex 0 of the fixture from the origin is 8 px. -/
theorem vtxDist0 : vertexScreenDist vtxViewport { x := 0, y := 0 } { x := 8, y := 0 } = 8 := by
  unfold vertexScreenDist worldToScreen
  dsimp only
  norm_num [vtxViewport]
  rw [show (64 : Real) = 8 ^ 2 by norm_num, Real.sqrt_sq (by norm_num : (0 : Real) ≤ 8)]

/-- The screen distance of vertex 1 of the fixture from the origin is 3 px. -/
theorem vtxDist1 : vertexScreenDist vtxViewport { x := 0, y := 0 } { x := 3, y := 0 } = 3 := by
  unfold vertexScreenDist worldToScreen
  dsimp only
  norm_num [vtxViewport]
  rw [show (9 : Real) = 3 ^ 2 by norm_num, Real.sqrt_sq (by norm_num : (0 : Real) ≤ 3)]

/-- C6 counterexample: vertices 0 and 1 are both within the 10 px radius and
vertex 1 (the higher index) is strictly nearer, yet the hit test returns
vertex 0 — the first match in index order, not the nearest vertex. -/
theorem findVertexAtPoint_notNearest :
    findVertexAtPoint vtxPoints vtxViewport { x := 0, y := 0 } = some 0 ∧
    vertexScreenDist vtxViewport { x := 0, y := 0 } (vtxPoints.getD 1 { x := 0, y := 0 })
      < vertexScreenDist vtxViewport { x := 0, y := 0 } (vtxPoints.getD 0 { x := 0, y := 0 }) ∧
    vertexScreenDist vtxViewport { x := 0, y := 0 } (vtxPoints.getD 1 { x := 0, y := 0 }) ≤ 10 ∧
    vertexScreenDist vtxViewport { x := 0, y := 0 } (vtxPoints.getD 0 { x := 0, y := 0 }) ≤ 10 ∧
    (some 0 : Option Nat) ≠ some 1 := by
  have hg1 : vtxPoints.getD 1 { x := 0, y := 0 } = { x := 3, y := 0 } := rfl
  have hg0 : vtxPoints.getD 0 { x := 0, y := 0 } = { x := 8, y := 0 } := rfl
  refine ⟨?_, ?_, ?_, ?_, by simp⟩
  · unfold findVertexAtPoint vtxPoints findVertexAux
    rw [vtxDist0, if_pos (by norm_num : (8 : Real) ≤ 10)]
  · rw [hg0, hg1, vtxDist0, vtxDist1]; norm_num
  · rw [hg1, vtxDist1]; norm_num
  · rw [hg0, vtxDist0]; norm_num

/-- C6 witness: the first-match characterization applied to the concrete
fixture, where the result is vertex 0. -/
theorem findVertexAtPoint_firstMatch_witness :
    findVertexAtPoint vtxPoints vtxViewport { x := 0, y := 0 } = some 0 ∧
    (0 < vtxPoints.length ∧
     vertexScreenDist vtxViewport { x := 0, y := 0 } (vtxPoints.getD 0 { x := 0, y := 0 }) ≤ 10 ∧
     ∀ j, j < 0 →
       10 < vertexScreenDist vtxViewport { x := 0, y := 0 } (vtxPoints.getD j { x := 0, y := 0 })) := by
  have hsome : findVertexAtPoint vtxPoints vtxViewport { x := 0, y := 0 } = some 0 := by
    unfold findVertexAtPoint vtxPoints findVertexAux
    rw [vtxDist0, if_pos (by norm_num : (8 : Real) ≤ 10)]
  exact ⟨hsome,
    (findVertexAtPoint_firstMatch vtxPoints vtxViewport { x := 0, y := 0 }).1 0 hsome⟩

/-! ### handleMouseMove branch lemmas -/

/-- In dragging-vertex mode with edit state and anchor present, handleMouseMove
runs the vertex branch. -/
theorem handleMouseMove_vertexBranch (st : CanvasState) (x y : Real) (ds : ScreenPoint)
    (pe : PolygonEditState) (vds : Point)
    (hmode : st.mode = .draggingVertex) (hds : st.dragStart = some ds)
    (hpe : st.polygonEditState = some pe) (hvds : st.vertexDragStart = some vds) :
    handleMouseMove st x y = vertexDragMove st ds pe vds x y := by
  simp [handleMouseMove, hds, hmode, hpe, hvds]

/-- In dragging-object mode with id and anchor present, handleMouseMove runs
the object branch. -/
theorem handleMouseMove_objectBranch (st : CanvasState) (x y : Real) (ds : ScreenPoint)
    (oid : String) (sp : Point)
    (hmode : st.mode = .draggingObject) (hds : st.dragStart = some ds)
    (hoid : st.draggedObjectId = some oid) (hsp : st.dragObjectStartPos = some sp) :
    handleMouseMove st x y = objectDragMove st ds oid sp x y := by
  simp [handleMouseMove, hds, hmode, hoid, hsp]

/-- In dragging-rotation mode with a dragged id present, handleMouseMove runs
the rotation branch. -/
theorem handleMouseMove_rotationBranch (st : CanvasState) (x y : Real) (ds : ScreenPoint)
    (oid : String)
    (hmode : st.mode = .draggingRotation) (hds : st.dragStart = some ds)
    (hoid : st.draggedObjectId = some oid) :
    handleMouseMove st x y = rotationDragMove st oid x y := by
  simp [handleMouseMove, hds, hmode, hoid]

/-- In panning mode, handleMouseMove runs the panning branch. -/
theorem handleMouseMove_panBranch (st : CanvasState) (x y : Real) (ds : ScreenPoint)
    (hmode : st.mode = .panning) (hds : st.dragStart = some ds) :
    handleMouseMove st x y = panMove st ds x y := by
  simp [handleMouseMove, hds, hmode]

/-- The vertex branch never touches the drag anchors, the mode, or the
viewport. -/
theorem vertexDragMove_preserves (st : CanvasState) (ds : ScreenPoint)
    (pe : PolygonEditState) (vds : Point) (x y : Real) :
    (vertexDragMove st ds pe vds x y).dragStart = st.dragStart ∧
    (vertexDragMove st ds pe vds x y).vertexDragStart = st.vertexDragStart ∧
    (vertexDragMove st ds pe vds x y).mode = st.mode ∧
    (vertexDragMove st ds pe vds x y).viewport = st.viewport := by
  unfold vertexDragMove
  dsimp only
  (repeat' split) <;> exact ⟨rfl, rfl, rfl, rfl⟩

/-- The rotation branch never touches the drag anchors, the recorded rotation
start angle, the mode, or the viewport. -/
theorem rotationDragMove_preserves (st : CanvasState) (oid : String) (x y : Real) :
    (rotationDragMove st oid x y).dragStart = st.dragStart ∧
    (rotationDragMove st oid x y).rotationStartAngle = st.rotationStartAngle ∧
    (rotationDragMove st oid x y).draggedObjectId = st.draggedObjectId ∧
    (rotationDragMove st oid x y).mode = st.mode ∧
    (rotationDragMove st oid x y).viewport = st.viewport := by
  unfold rotationDragMove
  dsimp only
  (repeat' split) <;> exact ⟨rfl, rfl, rfl, rfl, rfl⟩

/-! ### C7 -/

/-- C7 (amended): on pointer-move, vertex drags, object drags and rotation
drags recompute their quantity from the anchors recorded at gesture start
(`dragStart`, `vertexDragStart`, `dragObjectStartPos`, `rotationStartAngle`),
which are all retained unchanged; the panning branch instead adds the
per-frame delta to the offsets and re-anchors `dragStart` to the current
pointer position. -/
theorem handleMouseMove_anchor_recompute :
    (∀ (st : CanvasState) (x y : Real) (ds : ScreenPoint) (pe : PolygonEditState)
        (vds : Point),
      st.mode = .draggingVertex → st.dragStart = some ds →
      st.polygonEditState = some pe → st.vertexDragStart = some vds →
      (handleMouseMove st x y).dragStart = some ds ∧
      (handleMouseMove st x y).vertexDragStart = some vds) ∧
    (∀ (st : CanvasState) (x y : Real) (ds : ScreenPoint) (pe : PolygonEditState)
        (vds : Point) (di : Nat),
      st.mode = .draggingVertex → st.dragStart = some ds →
      st.polygonEditState = some pe → st.vertexDragStart = some vds →
      pe.target = .space → pe.draggedVertexIndex = some di →
      handleMouseMove st x y = { st with spaceOutline := ({ points :=
        (st.spaceOutline.points.set di
          ({ x := round ((vds.x : Real) +
              (x - ds.x) / (st.viewport.scale * st.viewport.zoomLevel) * 10),
             y := round ((vds.y : Real) +
              (y - ds.y) / (st.viewport.scale * st.viewport.zoomLevel) * 10) } : Point)) } : Polygon) }) ∧
    (∀ (st : CanvasState) (x y : Real) (ds : ScreenPoint) (oid : String) (sp : Point)
        (obj : SpaceObject),
      st.mode = .draggingObject → st.dragStart = some ds →
      st.draggedObjectId = some oid → st.dragObjectStartPos = some sp →
      st.objects.find? (fun o => o.id == oid) = some obj →
      handleMouseMove st x y = { st with objects :=
        (handleUpdateObjectPosition st.objects oid (constrainPositionToSpace obj
          ({ x := round ((sp.x : Real) +
              (x - ds.x) / (st.viewport.scale * st.viewport.zoomLevel) * 10),
             y := round ((sp.y : Real) +
              (y - ds.y) / (st.viewport.scale * st.viewport.zoomLevel) * 10) } : Point)
          st.spaceOutline)) }) ∧
    (∀ (st : CanvasState) (x y : Real) (ds : ScreenPoint) (oid : String),
      st.mode = .draggingRotation → st.dragStart = some ds →
      st.draggedObjectId = some oid →
      (handleMouseMove st x y).dragStart = some ds ∧
      (handleMouseMove st x y).rotationStartAngle = st.rotationStartAngle ∧
      (handleMouseMove st x y).draggedObjectId = some oid) ∧
    (∀ (st : CanvasState) (x y : Real) (ds : ScreenPoint),
      st.mode = .panning → st.dragStart = some ds →
      handleMouseMove st x y = { st with
        viewport := { st.viewport with
          offsetX := st.viewport.offsetX +
            (x - ds.x) / (st.viewport.scale * st.viewport.zoomLevel),
          offsetY := st.viewport.offsetY +
            (y - ds.y) / (st.viewport.scale * st.viewport.zoomLevel) },
        dragStart := some { x := x, y := y } }) := by
  refine ⟨?_, ?_, ?_, ?_, ?_⟩
  · intro st x y ds pe vds hmode hds hpe hvds
    rw [handleMouseMove_vertexBranch st x y ds pe vds hmode hds hpe hvds]
    obtain ⟨h1, h2, h3, h4⟩ := vertexDragMove_preserves st ds pe vds x y
    rw [h1, h2, hds, hvds]
    exact ⟨rfl, rfl⟩
  · intro st x y ds pe vds di hmode hds hpe hvds htgt hdi
    rw [handleMouseMove_vertexBranch st x y ds pe vds hmode hds hpe hvds]
    have hgep : getEditingPolygonWorldPoints st = some st.spaceOutline.points := by
      simp [getEditingPolygonWorldPoints, hpe, htgt]
    unfold vertexDragMove
    rw [hgep, hdi, htgt]
  · intro st x y ds oid sp obj hmode hds hoid hsp hobj
    rw [handleMouseMove_objectBranch st x y ds oid sp hmode hds hoid hsp]
    unfold objectDragMove
    rw [hobj]
  · intro st x y ds oid hmode hds hoid
    rw [handleMouseMove_rotationBranch st x y ds oid hmode hds hoid]
    obtain ⟨h1, h2, h3, h4, h5⟩ := rotationDragMove_preserves st oid x y
    rw [h1, h2, h3, hds, hoid]
    exact ⟨rfl, rfl, rfl⟩
  · intro st x y ds hmode hds
    rw [handleMouseMove_panBranch st x y ds hmode hds]
    rfl

/-- A concrete canvas state in panning mode with anchor at the origin. -/
def panState : CanvasState :=
  { viewport := initialViewport, mode := .panning,
    dragStart := some { x := 0, y := 0 }, draggedObjectId := none,
    dragObjectStartPos := none, rotationStartAngle := 0, vertexDragStart := none,
    polygonEditState := none, spaceOutline := lShape, objects := [] }

/-- C7 counterexample: during panning the recorded anchor is not retained — a
move to (5, 7) overwrites `dragStart` with the current pointer position, so
the accumulated-delta recomputation does not extend to the panning mode. -/
theorem handleMouseMove_pan_resets_anchor :
    panState.dragStart = some { x := 0, y := 0 } ∧
    (handleMouseMove panState 5 7).dragStart = some { x := 5, y := 7 } ∧
    (some ({ x := 5, y := 7 } : ScreenPoint))
      ≠ some ({ x := 0, y := 0 } : ScreenPoint) := by
  refine ⟨rfl, ?_, ?_⟩
  · rw [handleMouseMove_panBranch panState 5 7 { x := 0, y := 0 } rfl rfl]
    rfl
  · intro h
    have h2 := (Option.some.injEq _ _).mp h
    have h3 : (5 : Real) = 0 := congrArg ScreenPoint.x h2
    norm_num at h3

/-- C7 witness: the panning clause applied to the concrete panning state. -/
theorem handleMouseMove_anchor_recompute_witness :
    panState.mode = .panning ∧ panState.dragStart = some { x := 0, y := 0 } ∧
    handleMouseMove panState 5 7 = { panState with
      viewport := { panState.viewport with
        offsetX := panState.viewport.offsetX +
          (5 - ({ x := 0, y := 0 } : ScreenPoint).x) /
            (panState.viewport.scale * panState.viewport.zoomLevel),
        offsetY := panState.viewport.offsetY +
          (7 - ({ x := 0, y := 0 } : ScreenPoint).y) /
            (panState.viewport.scale * panState.viewport.zoomLevel) },
      dragStart := some { x := 5, y := 7 } } :=
  ⟨rfl, rfl, handleMouseMove_anchor_recompute.2.2.2.2 panState 5 7 { x := 0, y := 0 } rfl rfl⟩

/-! ### C3 -/

/-- C3: during a rotation drag, the candidate rotation
`(angle(position, pointer) - rotationStartAngle + 360) % 360` is committed
(through the double containment check of the canvas branch and
handleUpdateObjectRotation) exactly when the object rotated to the candidate
passes isObjectInsideSpace; otherwise the whole state is returned unchanged —
accept-or-reject with no sliding fallback. -/
theorem rotationDrag_acceptOrReject (st : CanvasState) (x y : Real) (ds : ScreenPoint)
    (oid : String) (obj : SpaceObject)
    (hmode : st.mode = .draggingRotation) (hds : st.dragStart = some ds)
    (hoid : st.draggedObjectId = some oid)
    (hobj : st.objects.find? (fun o => o.id == oid) = some obj) :
    handleMouseMove st x y =
      (if isObjectInsideSpace
          { obj with rotation := jsMod (calculateRotationAngle obj.position
              (screenToWorld x y st.viewport) - st.rotationStartAngle + 360) 360 }
          st.spaceOutline
       then { st with objects := st.objects.map fun o =>
          if o.id == oid then
            { o with rotation := jsMod (calculateRotationAngle obj.position
                (screenToWorld x y st.viewport) - st.rotationStartAngle + 360) 360 }
          else o }
       else st) := by
  rw [handleMouseMove_rotationBranch st x y ds oid hmode hds hoid]
  unfold rotationDragMove
  rw [hobj]
  dsimp only
  split
  next hpass =>
    unfold handleUpdateObjectRotation
    rw [hobj]
    dsimp only
    rw [if_pos hpass]
  next hpass => rfl

/-- A large rectangular room for the rotation witness. -/
def bigSquare : Polygon :=
  { points := [{ x := -100, y := -100 }, { x := 200, y := -100 },
               { x := 200, y := 200 }, { x := -100, y := 200 }] }

/-- An unrotated square object well inside `bigSquare`. -/
def rotObj : SpaceObject :=
  { id := "a", name := "chair", shape := box20, position := { x := 0, y := 50 },
    rotation := 0, zIndex := 0 }

/-- A concrete canvas state in dragging-rotation mode. -/
def rotState : CanvasState :=
  { viewport := initialViewport, mode := .draggingRotation,
    dragStart := some { x := 0, y := 0 }, draggedObjectId := some ("a"),
    dragObjectStartPos := none, rotationStartAngle := 0, vertexDragStart := none,
    polygonEditState := none, spaceOutline := bigSquare, objects := [rotObj] }

/-- The JS remainder of 360 by 360 is zero. -/
theorem jsMod_360 : jsMod 360 360 = 0 := by
  unfold jsMod jsTrunc
  norm_num

/-- Under the identity viewport, screen point (10, 5) maps to world point
(100, 50). -/
theorem screenToWorld_rotWitness : screenToWorld 10 5 initialViewport
    = { x := 100, y := 50 } := by
  unfold screenToWorld initialViewport
  dsimp only
  rw [Point.mk.injEq]
  norm_num

/-- The pointer angle for the rotation witness is zero: the pointer sits due
east of the object position. -/
theorem calcAngle_rotWitness :
    calculateRotationAngle { x := 0, y := 50 } { x := 100, y := 50 } = 0 := by
  unfold calculateRotationAngle atan2
  dsimp only
  norm_num
  exact jsMod_360

/-- C3 witness: in the concrete rotation-drag state the candidate rotation is
accepted and committed through the map update. -/
theorem rotationDrag_acceptOrReject_witness :
    rotState.objects.find? (fun o => o.id == "a") = some rotObj ∧
    handleMouseMove rotState 10 5 = { rotState with objects :=
      (rotState.objects.map fun o =>
        if o.id == "a" then
          { o with rotation := jsMod (calculateRotationAngle rotObj.position
              (screenToWorld 10 5 rotState.viewport) - rotState.rotationStartAngle + 360) 360 }
        else o) } := by
  have hfind : rotState.objects.find? (fun o => o.id == "a") = some rotObj := by
    simp [rotState, rotObj]
  have happ := rotationDrag_acceptOrReject rotState 10 5 { x := 0, y := 0 } "a" rotObj
    rfl rfl rfl hfind
  have hrot : jsMod (calculateRotationAngle rotObj.position
      (screenToWorld 10 5 rotState.viewport) - rotState.rotationStartAngle + 360) 360
      = 0 := by
    have h1 : rotObj.position = { x := 0, y := 50 } := rfl
    have h2 : rotState.viewport = initialViewport := rfl
    rw [h1, h2, screenToWorld_rotWitness, calcAngle_rotWitness]
    have h3 : rotState.rotationStartAngle = 0 := rfl
    rw [h3]
    norm_num [jsMod_360]
  have hpass : isObjectInsideSpace
      { rotObj with rotation := jsMod (calculateRotationAngle rotObj.position
          (screenToWorld 10 5 rotState.viewport) - rotState.rotationStartAngle + 360) 360 }
      bigSquare = true := by
    rw [hrot]
    rw [isObjectInsideSpace_rotZero _ _ rfl]
    simp only [isPointInPolygon_eq_int, rotObj, box20, bigSquare]
    decide
  refine ⟨hfind, ?_⟩
  rw [happ]
  split
  next h => rfl
  next h => exact absurd hpass h

/-! ### C10 -/

/-- Rounding the square root of two gives one. -/
theorem round_sqrt_two : round (Real.sqrt 2) = 1 := by
  have hs2 : Real.sqrt 2 ^ 2 = 2 := Real.sq_sqrt (by norm_num)
  have hn : (0 : Real) ≤ Real.sqrt 2 := Real.sqrt_nonneg 2
  rw [round_eq, Int.floor_eq_iff]
  constructor
  · push_cast
    nlinarith
  · push_cast
    nlinarith

/-- Cosine of 45 degrees in radians. -/
theorem cos_deg45 : Real.cos (45 * Real.pi / 180) = Real.sqrt 2 / 2 := by
  rw [show (45 : Real) * Real.pi / 180 = Real.pi / 4 by ring]
  exact Real.cos_pi_div_four

/-- Sine of 45 degrees in radians. -/
theorem sin_deg45 : Real.sin (45 * Real.pi / 180) = Real.sqrt 2 / 2 := by
  rw [show (45 : Real) * Real.pi / 180 = Real.pi / 4 by ring]
  exact Real.sin_pi_div_four

/-- A triangle object rotated by 45 degrees, with first shape vertex (2, 0). -/
def rot45Obj : SpaceObject :=
  { id := "c", name := "tilted",
    shape := { points := [{ x := 2, y := 0 }, { x := 0, y := 100 },
                          { x := -100, y := -100 }] },
    position := { x := 0, y := 0 }, rotation := 45, zIndex := 0 }

/-- Edit state dragging vertex 1 of the shape of `rot45Obj`. -/
def rot45PE : PolygonEditState :=
  { target := .object ("c"), hoveredVertexIndex := none, hoveredEdgeIndex := none,
    draggedVertexIndex := some 1, measurementEdgeIndex := none }

/-- A concrete canvas state in dragging-vertex mode over the shape of
`rot45Obj`. -/
def rot45State : CanvasState :=
  { viewport := initialViewport, mode := .draggingVertex,
    dragStart := some { x := 0, y := 0 }, draggedObjectId := none,
    dragObjectStartPos := none, rotationStartAngle := 0,
    vertexDragStart := some { x := 0, y := 100 },
    polygonEditState := some rot45PE, spaceOutline := bigSquare,
    objects := [rot45Obj] }

/-- The vertex branch with an object target: the dragged world vertex is
replaced and the whole ring is converted back to local coordinates by the
inverse rotation, rounding every point. -/
theorem vertexDragMove_object_eq (st : CanvasState) (ds : ScreenPoint)
    (pe : PolygonEditState) (vds : Point) (x y : Real) (oid : String)
    (obj : SpaceObject) (i : Nat)
    (htgt : pe.target = .object oid) (hdi : pe.draggedVertexIndex = some i)
    (hpe : st.polygonEditState = some pe)
    (hobj : st.objects.find? (fun o => o.id == oid) = some obj) :
    vertexDragMove st ds pe vds x y = { st with objects :=
      (handleUpdateObjectShape st.objects oid { points :=
        (((getObjectWorldPolygon obj).points.set i
          ({ x := round ((vds.x : Real) +
              (x - ds.x) / (st.viewport.scale * st.viewport.zoomLevel) * 10),
             y := round ((vds.y : Real) +
              (y - ds.y) / (st.viewport.scale * st.viewport.zoomLevel) * 10) } : Point)).map
          (fun p =>
            ({ x := round (((p.x - obj.position.x : Int) : Real) *
                  Real.cos (-obj.rotation * Real.pi / 180) -
                ((p.y - obj.position.y : Int) : Real) *
                  Real.sin (-obj.rotation * Real.pi / 180)),
               y := round (((p.x - obj.position.x : Int) : Real) *
                  Real.sin (-obj.rotation * Real.pi / 180) +
                ((p.y - obj.position.y : Int) : Real) *
                  Real.cos (-obj.rotation * Real.pi / 180)) } : Point))) }) } := by
  have hgep : getEditingPolygonWorldPoints st = some (getObjectWorldPolygon obj).points := by
    simp [getEditingPolygonWorldPoints, hpe, htgt, hobj]
  unfold vertexDragMove
  rw [hgep, hdi, htgt]
  dsimp only
  rw [hobj]

/-- C10: committing a vertex drag on an object shape recomputes the whole
point list through the world/local round trip; for an unrotated object every
shape point other than the dragged one is exactly preserved, while for the
45-degree object `rot45Obj` the rounding of the round trip perturbs the
undragged vertex 0 from (2, 0) to (1, 0). -/
theorem vertexDrag_objectShape :
    (∀ (st : CanvasState) (x y : Real) (ds : ScreenPoint) (pe : PolygonEditState)
        (vds : Point) (oid : String) (obj : SpaceObject) (i : Nat),
      st.mode = .draggingVertex → st.dragStart = some ds →
      st.polygonEditState = some pe → st.vertexDragStart = some vds →
      pe.target = .object oid → pe.draggedVertexIndex = some i →
      st.objects.find? (fun o => o.id == oid) = some obj →
      obj.rotation = 0 →
      ∃ pts : List Point,
        handleMouseMove st x y = { st with objects :=
          (handleUpdateObjectShape st.objects oid { points := pts }) } ∧
        ∀ j, j ≠ i → pts[j]? = obj.shape.points[j]?) ∧
    (∃ pts : List Point,
      handleMouseMove rot45State 0 0 = { rot45State with objects :=
        (handleUpdateObjectShape rot45State.objects ("c") { points := pts }) } ∧
      rot45PE.draggedVertexIndex = some 1 ∧
      rot45Obj.rotation = 45 ∧
      pts[0]? = some { x := 1, y := 0 } ∧
      rot45Obj.shape.points[0]? = some { x := 2, y := 0 } ∧
      ({ x := 1, y := 0 } : Point) ≠ { x := 2, y := 0 }) := by
  constructor
  · intro st x y ds pe vds oid obj i hmode hds hpe hvds htgt hdi hobj hrot
    refine ⟨_,
      (by
        rw [handleMouseMove_vertexBranch st x y ds pe vds hmode hds hpe hvds]
        exact vertexDragMove_object_eq st ds pe vds x y oid obj i htgt hdi hpe hobj), ?_⟩
    intro j hj
    rw [List.getElem?_map, List.getElem?_set_ne (Ne.symm hj),
      getObjectWorldPolygon_rotZero obj hrot]
    dsimp only
    rw [List.getElem?_map]
    cases hjp : obj.shape.points[j]? with
    | none => rfl
    | some p =>
      simp [hrot, add_sub_cancel_right]
  · have hobj45 : rot45State.objects.find? (fun o => o.id == "c") = some rot45Obj := by
      simp [rot45State, rot45Obj]
    refine ⟨_,
      (by
        rw [handleMouseMove_vertexBranch rot45State 0 0 { x := 0, y := 0 } rot45PE
          { x := 0, y := 100 } rfl rfl rfl rfl]
        exact vertexDragMove_object_eq rot45State { x := 0, y := 0 } rot45PE
          { x := 0, y := 100 } 0 0 "c" rot45Obj 1 rfl rfl rfl hobj45), rfl, rfl, ?_, rfl,
      by decide⟩
    rw [List.getElem?_map, List.getElem?_set_ne (by norm_num : (1 : Nat) ≠ 0)]
    have hw : (getObjectWorldPolygon rot45Obj).points[0]? = some { x := 1, y := 1 } := by
        unfold getObjectWorldPolygon
        dsimp only
        rw [List.getElem?_map, show rot45Obj.shape.points[0]? = some { x := 2, y := 0 }
          from rfl]
        dsimp only [Option.map_some']
        unfold rotatePoint
        dsimp only
        rw [show rot45Obj.rotation = 45 from rfl, cos_deg45, sin_deg45]
        rw [show ((2 : Int) : Real) * (Real.sqrt 2 / 2) - ((0 : Int) : Real) *
            (Real.sqrt 2 / 2) = Real.sqrt 2 by push_cast; ring,
          show ((2 : Int) : Real) * (Real.sqrt 2 / 2) + ((0 : Int) : Real) *
            (Real.sqrt 2 / 2) = Real.sqrt 2 by push_cast; ring,
          round_sqrt_two]
        rfl
    rw [hw]
    dsimp only [Option.map_some']
    have hcneg : Real.cos (-rot45Obj.rotation * Real.pi / 180) = Real.sqrt 2 / 2 := by
      rw [show -rot45Obj.rotation * Real.pi / 180 = -(45 * Real.pi / 180) by
        rw [show rot45Obj.rotation = 45 from rfl]; ring, Real.cos_neg, cos_deg45]
    have hsneg : Real.sin (-rot45Obj.rotation * Real.pi / 180) = -(Real.sqrt 2 / 2) := by
      rw [show -rot45Obj.rotation * Real.pi / 180 = -(45 * Real.pi / 180) by
        rw [show rot45Obj.rotation = 45 from rfl]; ring, Real.sin_neg, sin_deg45]
    rw [show rot45Obj.position = { x := 0, y := 0 } from rfl]
    dsimp only
    rw [hcneg, hsneg]
    rw [show (((1 : Int) - 0 : Int) : Real) * (Real.sqrt 2 / 2) -
        (((1 : Int) - 0 : Int) : Real) * -(Real.sqrt 2 / 2) = Real.sqrt 2 by
      push_cast; ring]
    rw [show (((1 : Int) - 0 : Int) : Real) * -(Real.sqrt 2 / 2) +
        (((1 : Int) - 0 : Int) : Real) * (Real.sqrt 2 / 2) = 0 by push_cast; ring]
    rw [round_sqrt_two, round_zero]

/-- An unrotated object for the vertex-drag witness. -/
def vd0Obj : SpaceObject :=
  { id := "d", name := "box", shape := box20, position := { x := 50, y := 50 },
    rotation := 0, zIndex := 0 }

/-- Edit state dragging vertex 0 of the shape of `vd0Obj`. -/
def vd0PE : PolygonEditState :=
  { target := .object ("d"), hoveredVertexIndex := none, hoveredEdgeIndex := none,
    draggedVertexIndex := some 0, measurementEdgeIndex := none }

/-- A concrete canvas state in dragging-vertex mode over the shape of
`vd0Obj`. -/
def vd0State : CanvasState :=
  { viewport := initialViewport, mode := .draggingVertex,
    dragStart := some { x := 0, y := 0 }, draggedObjectId := none,
    dragObjectStartPos := none, rotationStartAngle := 0,
    vertexDragStart := some { x := 40, y := 40 },
    polygonEditState := some vd0PE, spaceOutline := bigSquare,
    objects := [vd0Obj] }

/-- C10 witness: the rotation-zero preservation clause applied to the concrete
unrotated object. -/
theorem vertexDrag_objectShape_witness :
    vd0State.objects.find? (fun o => o.id == "d") = some vd0Obj ∧
    vd0Obj.rotation = 0 ∧
    (∃ pts : List Point,
      handleMouseMove vd0State 0 0 = { vd0State with objects :=
        (handleUpdateObjectShape vd0State.objects ("d") { points := pts }) } ∧
      ∀ j, j ≠ 0 → pts[j]? = vd0Obj.shape.points[j]?) := by
  have hfind : vd0State.objects.find? (fun o => o.id == "d") = some vd0Obj := by
    simp [vd0State, vd0Obj]
  exact ⟨hfind, rfl,
    vertexDrag_objectShape.1 vd0State 0 0 { x := 0, y := 0 } vd0PE { x := 40, y := 40 }
      "d" vd0Obj 0 rfl rfl rfl rfl rfl rfl hfind rfl⟩

end SpacePlanner
